import Mathlib

/-!
Shallow embedding of the client-side data-normalization, request-gateway,
upload-flow and RCA/appeal-orchestration logic of the medical-denial
dashboard, together with theorems checking the specification claims.

Conventions used throughout the embedding:
* JavaScript values that may be `undefined`/`null` are modelled as `Option`.
* The JavaScript `a || b` fallback on strings is falsy on the empty string,
  so it is modelled by `jsOrStr`; truthiness of an optional string is
  `jsTruthy`.
* Backend records are untyped JSON objects; `RawDenial` lists exactly the
  fields the normalizers read, each optional.  A numeric backend `id` is
  represented by its decimal string (the source immediately applies
  `toString()` to it).
* `new Date().toISOString()` is modelled by an explicit `now : String`
  parameter.
-/

namespace MedicalDenial

/-- Substring test, modelling JavaScript `String.prototype.includes`. -/
def containsSub (s pat : String) : Bool :=
  s.toList.tails.any (fun t => pat.toList.isPrefixOf t)

/-- Strip leading and trailing whitespace from a character list. -/
def trimChars (l : List Char) : List Char :=
  ((l.dropWhile Char.isWhitespace).reverse.dropWhile Char.isWhitespace).reverse

/-- JavaScript `String.prototype.trim`, as a whole-string character-list
operation (both model whitespace on either end; the exact whitespace
character classes of the two platforms agree on ASCII). -/
def jsTrim (s : String) : String := ⟨trimChars s.toList⟩

/-- JavaScript `String.prototype.toLowerCase` (ASCII case mapping). -/
def jsToLower (s : String) : String := ⟨s.toList.map Char.toLower⟩

/-- JavaScript `String.prototype.endsWith`. -/
def jsEndsWith (s suffix : String) : Bool :=
  List.isSuffixOf suffix.toList s.toList

/-- JavaScript `v || d` for an optional string `v`: the empty string is
falsy, so it also falls back to the default. -/
def jsOrStr (v : Option String) (d : String) : String :=
  match v with
  | some s => if s = "" then d else s
  | none => d

/-- JavaScript truthiness of an optional string: `none` (undefined/null)
and the empty string are falsy. -/
def jsTruthy (v : Option String) : Bool :=
  match v with
  | some s => s ≠ ""
  | none => false

/-- JavaScript `v || undefined` for an optional string: keeps a truthy
value, collapses a falsy one to `undefined`. -/
def jsTruthyOpt (v : Option String) : Option String :=
  if jsTruthy v then v else none

/-- The four canonical UI statuses of `Denial["status"]`. -/
inductive Status where
  | inReview
  | appealFiled
  | denied
  | resolved
deriving DecidableEq, Repr

/-- UI string of each canonical status. -/
def Status.toUI : Status → String
  | .inReview => "In Review"
  | .appealFiled => "Appeal Filed"
  | .denied => "Denied"
  | .resolved => "Resolved"

/-- `validStatuses` from `normalizeDenial`. -/
def validStatuses : List String :=
  ["In Review", "Appeal Filed", "Denied", "Resolved"]

/-- The `validStatuses.includes(backendStatus)` passthrough of the switch
default branch, returning the matching canonical status. -/
def parseCanonical (s : String) : Option Status :=
  if s = "In Review" then some .inReview
  else if s = "Appeal Filed" then some .appealFiled
  else if s = "Denied" then some .denied
  else if s = "Resolved" then some .resolved
  else none

/-- The seven `case` labels of the status `switch` in `normalizeDenial`. -/
def mappingTableKeys : List String :=
  ["New", "In Review", "RCA Completed", "Appeal Generated", "Appeal Filed",
   "Denied", "Resolved"]

/-- The status `switch` of `normalizeDenial`, applied to the trimmed
backend status string.  The second component records whether the
`console.warn` diagnostic fired. -/
def statusSwitch (s : String) : Status × Bool :=
  if s = "New" then (.inReview, false)
  else if s = "In Review" then (.inReview, false)
  else if s = "RCA Completed" then (.inReview, false)
  else if s = "Appeal Generated" then (.appealFiled, false)
  else if s = "Appeal Filed" then (.appealFiled, false)
  else if s = "Denied" then (.denied, false)
  else if s = "Resolved" then (.resolved, false)
  else
    match parseCanonical s with
    | some st => (st, false)
    | none => (.inReview, true)

/-- Status normalization on `rawDenial.status?.toString().trim()`:
`none` models an absent status, which falls through every `case` and the
`validStatuses.includes` check to the warned default. -/
def normalizeStatus (backendStatus : Option String) : Status × Bool :=
  match backendStatus with
  | some s => statusSwitch s
  | none => (.inReview, true)

/-- Fields of `rawDenial.rcaResult` read by the normalizers. -/
structure RawRcaResult where
  analysis : Option String := none
deriving DecidableEq, Repr

/-- Fields of `rawDenial.appealResult` read by the normalizers. -/
structure RawAppealResult where
  emailDraft : Option String := none
deriving DecidableEq, Repr

/-- An untyped backend denial record: exactly the fields `normalizeDenial`
and `normalizeDenialDetail` read, each possibly absent. -/
structure RawDenial where
  id : Option String := none
  denialId : Option String := none
  serviceDate : Option String := none
  location : Option String := none
  patientName : Option String := none
  claimId : Option String := none
  insurance : Option String := none
  denialReason : Option String := none
  amount : Option Int := none
  status : Option String := none
  denialDate : Option String := none
  notes : Option String := none
  appealDeadline : Option String := none
  claimType : Option String := none
  provider : Option String := none
  providerNPI : Option String := none
  diagnosis : Option String := none
  actionTaken : Option String := none
  resolutionDate : Option String := none
  appealResult : Option RawAppealResult := none
  rcaResult : Option RawRcaResult := none
deriving DecidableEq, Repr

/-- The stable UI `Denial` record. -/
structure Denial where
  id : String
  date : String
  location : String
  patientName : String
  patientId : String
  claimNumber : String
  insurancePayer : String
  denialReason : String
  claimAmount : Int
  status : Status
  priority : String
  createdAt : String
  updatedAt : String
  rcaStatus : String
deriving DecidableEq, Repr

/-- `normalizeDenial` from the API utilities, with `now` standing for
`new Date().toISOString()`. -/
def normalizeDenial (rawDenial : RawDenial) (now : String) : Denial :=
  let backendStatus := rawDenial.status.map jsTrim
  { id := jsOrStr rawDenial.id (jsOrStr rawDenial.denialId "")
    date := jsOrStr rawDenial.serviceDate now
    location := jsOrStr rawDenial.location "Unknown Location"
    patientName := jsOrStr rawDenial.patientName "Unknown Patient"
    patientId := jsOrStr rawDenial.id ""
    claimNumber := jsOrStr rawDenial.claimId ""
    insurancePayer := jsOrStr rawDenial.insurance "Unknown Payer"
    denialReason := jsOrStr rawDenial.denialReason "Reason not specified"
    claimAmount := rawDenial.amount.getD 0
    status := (normalizeStatus backendStatus).1
    priority := "medium"
    createdAt := jsOrStr rawDenial.denialDate now
    updatedAt := jsOrStr rawDenial.denialDate now
    rcaStatus := if backendStatus = some "RCA Completed" then "completed" else "pending" }

/-- Fixed sentence used as `rootCause` when status is `"RCA Completed"`
but no truthy `rcaResult.analysis` is available. -/
def rcaCompletedFallback : String :=
  "Root cause analysis completed. Issues identified from extracted documentation data."

/-- The `form837Data` sub-object synthesized by `normalizeDenialDetail`. -/
structure Form837Data where
  claimControlNumber : Option String
  serviceDate : Option String
  chargedAmount : Option Int
  providerNPI : Option String
  facilityNPI : Option String
deriving DecidableEq, Repr

/-- The `form835Data` sub-object synthesized by `normalizeDenialDetail`. -/
structure Form835Data where
  payerName : Option String
  claimStatus : Option String
  denialCodes : List String
deriving DecidableEq, Repr

/-- The `ediDetails` sub-object of a `DenialDetail`. -/
structure EdiDetails where
  form837Data : Form837Data
  form835Data : Form835Data
deriving DecidableEq, Repr

/-- The extended UI `DenialDetail` record; `base` holds the fields
inherited from `Denial`. -/
structure DenialDetail where
  base : Denial
  summary : Option String
  rootCause : Option String
  appealLetter : Option String
  appealDeadline : Option String
  claimType : Option String
  provider : Option String
  providerNPI : Option String
  diagnosis : Option String
  actionTaken : Option String
  resolutionDate : Option String
  appealResult : Option RawAppealResult
  rcaResult : Option RawRcaResult
  ediDetails : EdiDetails
  documents : List String
deriving DecidableEq, Repr

/-- `normalizeDenialDetail` from the API utilities.  The `appealResult`
passthrough keeps the raw object when it is truthy (`none` models an
absent or falsy field); `try/catch` around the plain assignment can never
fire and is dropped. -/
def normalizeDenialDetail (rawDenial : RawDenial) (now : String) : DenialDetail :=
  let baseDenial := normalizeDenial rawDenial now
  let appealResult := rawDenial.appealResult
  let backendStatus := rawDenial.status.map jsTrim
  let rcaAnalysis := rawDenial.rcaResult.bind RawRcaResult.analysis
  let rootCause : Option String :=
    if backendStatus = some "RCA Completed" ∧ jsTruthy rcaAnalysis then
      rcaAnalysis
    else if backendStatus = some "RCA Completed" then
      some rcaCompletedFallback
    else
      none
  { base := baseDenial
    summary := jsTruthyOpt rawDenial.notes
    rootCause := rootCause
    appealLetter := jsTruthyOpt (appealResult.bind RawAppealResult.emailDraft)
    appealDeadline := jsTruthyOpt rawDenial.appealDeadline
    claimType := jsTruthyOpt rawDenial.claimType
    provider := jsTruthyOpt rawDenial.provider
    providerNPI := jsTruthyOpt rawDenial.providerNPI
    diagnosis := jsTruthyOpt rawDenial.diagnosis
    actionTaken := jsTruthyOpt rawDenial.actionTaken
    resolutionDate := jsTruthyOpt rawDenial.resolutionDate
    appealResult := appealResult
    rcaResult := rawDenial.rcaResult
    ediDetails :=
      { form837Data :=
          { claimControlNumber := rawDenial.claimId
            serviceDate := rawDenial.serviceDate
            chargedAmount := rawDenial.amount
            providerNPI := rawDenial.providerNPI
            facilityNPI := rawDenial.providerNPI }
        form835Data :=
          { payerName := rawDenial.insurance
            claimStatus := rawDenial.status
            denialCodes := if jsTruthy rawDenial.denialReason then [rawDenial.denialReason.getD ""] else [] } }
    documents := [] }

/-! ### Request gateway (`ApiService.request`) -/

/-- The shape of an HTTP response as observed by `ApiService.request`.
`errorJsonMessage` describes the outcome of `await response.json()` on the
error path: `none` when the body does not parse as JSON, `some m` when it
parses with `m` the optional string `message` field. -/
structure HttpResponse where
  status : Nat
  statusText : String
  contentType : Option String
  body : String
  errorJsonMessage : Option (Option String)
deriving DecidableEq, Repr

/-- `Response.ok` of the fetch API. -/
def responseOk (status : Nat) : Bool :=
  200 ≤ status ∧ status < 300

/-- The fallback error message `HTTP <status>: <statusText>`. -/
def defaultHttpError (r : HttpResponse) : String :=
  "HTTP " ++ toString r.status ++ ": " ++ r.statusText

/-- `errorData.message || errorMessage`: the JSON body message when it
parses and is truthy, else the default. -/
def httpErrorMessage (r : HttpResponse) : String :=
  match r.errorJsonMessage with
  | some (some m) => if m = "" then defaultHttpError r else m
  | _ => defaultHttpError r

/-- What `fetch` delivered: a transport-level failure (a `TypeError`
containing `Failed to fetch`, e.g. DNS failure or connection refusal)
or a response. -/
inductive FetchOutcome where
  | failedToFetch
  | response (r : HttpResponse)
deriving DecidableEq, Repr

/-- Observable result of `ApiService.request`. -/
inductive RequestResult where
  | jsonData (body : String)
  | emptyObj
  | textData (body : String)
  | thrown (msg : String)
deriving DecidableEq, Repr

/-- The distinguished transport-failure message of the gateway. -/
def networkErrorMsg : String := "Network Error: Unable to connect to backend API"

/-- `contentType && contentType.includes("application/json")`. -/
def contentTypeIsJson (ct : Option String) : Bool :=
  match ct with
  | some c => containsSub c "application/json"
  | none => false

/-- `ApiService.request`: response handling and error policy.  The
`Error` thrown for a non-ok response is not a `TypeError`, so the outer
`catch` re-throws it unchanged. -/
def request (outcome : FetchOutcome) : RequestResult :=
  match outcome with
  | .failedToFetch => .thrown networkErrorMsg
  | .response r =>
      if ¬ responseOk r.status then .thrown (httpErrorMessage r)
      else if contentTypeIsJson r.contentType then .jsonData r.body
      else if r.status = 204 then .emptyObj
      else .textData r.body

/-! ### Upload flow (`UploadDenialModal`) -/

/-- One mebibyte; the source writes the limits as `n * 1024 * 1024`. -/
def mib : Nat := 1024 * 1024

/-- The view state of the upload modal touched by `handleFileChange`:
the accepted file (name and size in bytes), the validation error, and the
large-file advisory flag.  `file = none` is the `Idle` flow state. -/
structure UploadModalState where
  file : Option (String × Nat)
  error : Option String
  timeoutWarning : Bool
deriving DecidableEq, Repr

/-- The modal state before any selection. -/
def idleUploadState : UploadModalState :=
  { file := none, error := none, timeoutWarning := false }

/-- The `.zip` extension guard:
`selectedFile.name.toLowerCase().endsWith(".zip")`. -/
def hasZipExtension (name : String) : Bool :=
  jsEndsWith (jsToLower name) ".zip"

/-- `handleFileChange` for a selected file with the given name and byte
size.  Rejections set only the validation message and return early; an
accepted file replaces the selection, clears the error, and raises the
advisory exactly for sizes above 50 MiB.  No network request is issued
anywhere in this handler. -/
def handleFileChange (st : UploadModalState) (name : String) (size : Nat) : UploadModalState :=
  if ¬ hasZipExtension name then
    { st with error := some "Please select a ZIP file" }
  else if size > 100 * mib then
    { st with error := some "File size must be less than 100MB" }
  else
    { st with
        file := some (name, size)
        error := none
        timeoutWarning := size > 50 * mib }

/-- A single-quote character, spelled via its code point. -/
def apos : String := String.singleton (Char.ofNat 39)

/-- Remediation message of the timeout category in `handleUpload`. -/
def timeoutRemediationMsg : String :=
  "Upload timed out. The file may be too large or your connection is slow. Please try with a smaller file or check your internet connection."

/-- Remediation message of the network-error category in `handleUpload`. -/
def networkRemediationMsg : String :=
  "Network error occurred. Please check your internet connection and try again."

/-- Remediation message of the unsupported-media-type (415) category. -/
def unsupportedTypeRemediationMsg : String :=
  "Server doesn" ++ apos ++ "t support this file type. Please ensure your backend accepts ZIP files."

/-- Remediation message of the payload-too-large (413) category. -/
def payloadTooLargeRemediationMsg : String :=
  "File is too large for the server. Please try with a smaller file."

/-- Remediation message of the server-error (500) category. -/
def serverErrorRemediationMsg : String :=
  "Server error occurred while processing the file. Please try again later."

/-- The substring-match error classification of `handleUpload`, applied
to the message of a thrown `Error`; the final branch is the generic
category, which shows the raw message itself. -/
def classifyUploadError (msg : String) : String :=
  if containsSub msg "timeout" then timeoutRemediationMsg
  else if containsSub msg "Network error" then networkRemediationMsg
  else if containsSub msg "415" then unsupportedTypeRemediationMsg
  else if containsSub msg "413" then payloadTooLargeRemediationMsg
  else if containsSub msg "500" then serverErrorRemediationMsg
  else msg

/-- The message `ApiService.uploadRequest` rejects with when the XHR
fires its `error` event (the transport-level network-failure signal of
the upload path). -/
def uploadNetworkErrorMsg : String := "Upload network error"

/-- The message `ApiService.uploadRequest` rejects with on its `timeout`
event. -/
def uploadTimeoutErrorMsg : String := "Upload timeout"

/-- The message `ApiService.uploadRequest` rejects with for a non-2xx
upload response. -/
def uploadHttpErrorMsg (status : Nat) : String :=
  "Upload failed: HTTP " ++ toString status

/-! ### RCA orchestration (`ApiService.triggerRCA`, `handleAnalyze`,
`generateContextualRCA`) -/

/-- One categorized issue of a locally synthesized RCA result. -/
structure RCAIssue where
  category : String
  severity : String
  description : String
  recommendation : String
deriving DecidableEq, Repr

/-- A locally synthesized `RCAResult` (the `source`/`issues` arm of the
view model; the `apiResponse` arm carries the backend payload instead). -/
structure OfflineRCAResult where
  source : String
  issues : List RCAIssue
deriving DecidableEq, Repr

/-- The fixed 3-issue emergency-services narrative of
`generateContextualRCA`. -/
def priorAuthRCA : OfflineRCAResult :=
  { source := "offline"
    issues :=
      [ { category := "Prior Authorization"
          severity := "High"
          description := "Emergency services claim denied due to lack of prior authorization (Code: CO197)"
          recommendation := "File appeal emphasizing emergency nature of services - prior auth not required for emergency care per CMS guidelines" },
        { category := "Emergency Services Regulation"
          severity := "High"
          description := "Violation of Emergency Medical Treatment and Labor Act (EMTALA) requirements"
          recommendation := "Reference EMTALA regulations that prohibit prior authorization requirements for emergency services" },
        { category := "Documentation"
          severity := "Medium"
          description := "Emergency department documentation should clearly establish emergency nature"
          recommendation := "Ensure ED records document chief complaint, triage level, and medical necessity for emergency care" } ] }

/-- The fixed 3-issue generic documentation narrative of
`generateContextualRCA`. -/
def genericRCA : OfflineRCAResult :=
  { source := "offline"
    issues :=
      [ { category := "Documentation"
          severity := "High"
          description := "Insufficient supporting documentation for medical necessity"
          recommendation := "Gather additional clinical notes and supporting documentation" },
        { category := "Coding Review"
          severity := "Medium"
          description := "Verify diagnosis and procedure codes align with services provided"
          recommendation := "Review ICD-10 and CPT codes for accuracy and specificity" },
        { category := "Policy Compliance"
          severity := "Medium"
          description := "Ensure services meet payer policy requirements"
          recommendation := "Review payer-specific coverage policies and guidelines" } ] }

/-- The keyword condition of `generateContextualRCA` on the lower-cased
reason text. -/
def rcaKeywordHit (lowerReason : String) : Bool :=
  containsSub lowerReason "prior authorization" || containsSub lowerReason "co197"

/-- `generateContextualRCA`: the deterministic offline fallback, keyed on
`(denialData?.denialReason || "").toLowerCase()`. -/
def generateContextualRCA (denialReason : Option String) : OfflineRCAResult :=
  let r := jsToLower (jsOrStr denialReason "")
  if rcaKeywordHit r then priorAuthRCA else genericRCA

/-- Outcome of the POST `/Denials/{id}/rca` call as seen by
`ApiService.triggerRCA`: the request threw, or it succeeded with an
envelope whose `rcaResult` field is truthy (`some`) or absent/falsy
(`none`). -/
inductive RcaCallOutcome (α : Type) where
  | failed (msg : String)
  | succeeded (rcaResult : Option α)
deriving DecidableEq, Repr

/-- The error message thrown when the envelope lacks `rcaResult`. -/
def rcaMissingMsg : String := "RCA result not found in response"

/-- `ApiService.triggerRCA`: unwrap `rcaResult` from the envelope, treat
a missing field or a failed request as a thrown error (the `catch` block
only logs and re-throws). -/
def triggerRCA {α : Type} (outcome : RcaCallOutcome α) : Except String α :=
  match outcome with
  | .failed msg => .error msg
  | .succeeded none => .error rcaMissingMsg
  | .succeeded (some v) => .ok v

/-- The RCA view state set by `handleAnalyze`: the backend payload on
success, or the locally synthesized offline result. -/
inductive RcaViewResult (α : Type) where
  | api (payload : α)
  | offline (result : OfflineRCAResult)
deriving DecidableEq, Repr

/-- The success/fallback branching of `handleAnalyze`: any error from
`triggerRCA` routes to `generateContextualRCA` on the denial record. -/
def handleAnalyze {α : Type} (denialReason : Option String)
    (outcome : RcaCallOutcome α) : RcaViewResult α :=
  match triggerRCA outcome with
  | .ok v => .api v
  | .error _ => .offline (generateContextualRCA denialReason)

/-! ### Appeal orchestration (`handlePrepareAppeal`) -/

/-- The `AppealResult` view shape. -/
structure AppealResult where
  appealStatus : String
  emailDraft : String
  supportDocumentLinks : List String
  missingInformation : List String
  generatedAt : String
  jobId : Int
deriving DecidableEq, Repr

/-- The fixed fallback appeal letter template, interpolating the claim
number, patient name, formatted service date, formatted claim amount,
denial reason and facility location of the denial.  `fmtDate` and
`fmtAmount` stand for the locale-dependent
`new Date(x).toLocaleDateString()` and `x.toLocaleString()`. -/
def fallbackAppealLetter (denial : Denial) (fmtDate : String → String)
    (fmtAmount : Int → String) : String :=
  "Dear Claims Review Team,\n\nWe are writing to formally appeal the denial of claim "
    ++ denial.claimNumber ++ " for patient " ++ denial.patientName
    ++ ".\n\nCLAIM DETAILS:\n- Service Date: " ++ fmtDate denial.date
    ++ "\n- Claim Amount: $" ++ fmtAmount denial.claimAmount
    ++ "\n- Denial Reason: " ++ denial.denialReason
    ++ "\n\nAPPEAL BASIS:\nAfter careful review of the denial reason and supporting documentation, we believe this claim was incorrectly denied. The services provided were medically necessary and appropriate for the patient"
    ++ apos
    ++ "s condition.\n\nWe respectfully request that you reconsider this denial and approve payment for the services rendered.\n\nThank you for your prompt attention to this matter.\n\nSincerely,\nMedical Review Team\n"
    ++ denial.location

/-- The synthesized fallback `AppealResult` of `handlePrepareAppeal`. -/
def fallbackAppeal (denial : Denial) (now : String) (fmtDate : String → String)
    (fmtAmount : Int → String) : AppealResult :=
  { appealStatus := "Generated Offline"
    emailDraft := fallbackAppealLetter denial fmtDate fmtAmount
    supportDocumentLinks := []
    missingInformation := []
    generatedAt := now
    jobId := 0 }

/-- A backend call that mutates server state, for tracing which requests
a handler issues. -/
inductive BackendEffect where
  | postGenerateAppeal (denialId : String)
  | putDenialStatus (denialId : String) (status : String)
deriving DecidableEq, Repr

/-- Outcome of the POST `/Denials/{id}/appeal` call. -/
inductive AppealCallOutcome where
  | failed (msg : String)
  | succeeded (resp : AppealResult)
deriving DecidableEq, Repr

/-- `handlePrepareAppeal`: the displayed appeal result (which replaces
any previously displayed one wholesale via `setAppealResult`) together
with the trace of backend calls the handler issues — in both branches
exactly the one POST that attempts remote generation; the synthesized
fallback is only stored in view state. -/
def handlePrepareAppeal (denial : Denial) (now : String)
    (fmtDate : String → String) (fmtAmount : Int → String)
    (outcome : AppealCallOutcome) : AppealResult × List BackendEffect :=
  match outcome with
  | .succeeded resp => (resp, [.postGenerateAppeal denial.id])
  | .failed _ => (fallbackAppeal denial now fmtDate fmtAmount, [.postGenerateAppeal denial.id])

/-! ## Theorems for the specification claims -/

/-- Claim C1: `normalizeDenial` normalizes the trimmed backend status by
the exact case-sensitive seven-entry table; any other string equal to one
of the four canonical UI statuses passes through without a warning, every
remaining string is coerced to In Review with a warning, and the
resulting status is always one of the four enum values. -/
theorem c1_status_normalization :
    ((∀ raw now, (normalizeDenial raw now).status = (normalizeStatus (raw.status.map jsTrim)).1)
      ∧ (∀ raw now, (normalizeDenial raw now).status = Status.inReview
          ∨ (normalizeDenial raw now).status = Status.appealFiled
          ∨ (normalizeDenial raw now).status = Status.denied
          ∨ (normalizeDenial raw now).status = Status.resolved))
    ∧ (normalizeStatus (some "New") = (Status.inReview, false)
      ∧ normalizeStatus (some "In Review") = (Status.inReview, false)
      ∧ normalizeStatus (some "RCA Completed") = (Status.inReview, false)
      ∧ normalizeStatus (some "Appeal Generated") = (Status.appealFiled, false)
      ∧ normalizeStatus (some "Appeal Filed") = (Status.appealFiled, false)
      ∧ normalizeStatus (some "Denied") = (Status.denied, false)
      ∧ normalizeStatus (some "Resolved") = (Status.resolved, false))
    ∧ (∀ s : String, s ∉ mappingTableKeys →
        (∀ st, parseCanonical s = some st → normalizeStatus (some s) = (st, false))
        ∧ (parseCanonical s = none → normalizeStatus (some s) = (Status.inReview, true))) := by
  refine ⟨⟨fun raw now => rfl, fun raw now => ?_⟩, by decide, ?_⟩
  · cases h : (normalizeDenial raw now).status <;> simp
  · intro s hs
    simp only [mappingTableKeys, List.mem_cons, List.not_mem_nil, or_false, not_or] at hs
    obtain ⟨h1, h2, h3, h4, h5, h6, h7⟩ := hs
    constructor
    · intro st hst
      simp [normalizeStatus, statusSwitch, h1, h2, h3, h4, h5, h6, h7, hst]
    · intro hn
      simp [normalizeStatus, statusSwitch, h1, h2, h3, h4, h5, h6, h7, hn]

/-- Witness for C1: a status string outside the table and not canonical
is coerced to In Review with the warning flag set. -/
theorem c1_witness :
    "MRI Pending" ∉ mappingTableKeys
    ∧ normalizeStatus (some "MRI Pending") = (Status.inReview, true) :=
  ⟨by decide, (c1_status_normalization.2.2 "MRI Pending" (by decide)).2 (by decide)⟩

/-- Claim C2: `normalizeDenial` always produces a fully populated record:
every scalar field receives its literal default when the backend field is
missing (the `now` timestamp for missing dates) and priority is always
"medium". -/
theorem c2_field_defaults :
    ∀ (raw : RawDenial) (now : String),
      (normalizeDenial raw now).priority = "medium"
      ∧ (raw.location = none → (normalizeDenial raw now).location = "Unknown Location")
      ∧ (raw.patientName = none → (normalizeDenial raw now).patientName = "Unknown Patient")
      ∧ (raw.amount = none → (normalizeDenial raw now).claimAmount = 0)
      ∧ (raw.serviceDate = none → (normalizeDenial raw now).date = now)
      ∧ (raw.denialDate = none →
          (normalizeDenial raw now).createdAt = now ∧ (normalizeDenial raw now).updatedAt = now)
      ∧ (raw.insurance = none → (normalizeDenial raw now).insurancePayer = "Unknown Payer")
      ∧ (raw.denialReason = none → (normalizeDenial raw now).denialReason = "Reason not specified")
      ∧ (raw.id = none → raw.denialId = none →
          (normalizeDenial raw now).id = "" ∧ (normalizeDenial raw now).patientId = "")
      ∧ (raw.claimId = none → (normalizeDenial raw now).claimNumber = "") := by
  intro raw now
  refine ⟨rfl, ?_, ?_, ?_, ?_, ?_, ?_, ?_, ?_, ?_⟩ <;>
    intros <;> simp_all [normalizeDenial, jsOrStr]

/-- Witness for C2: the fully empty backend record gets every default. -/
theorem c2_witness :
    (normalizeDenial {} "2024-01-01T00:00:00.000Z").priority = "medium"
    ∧ (normalizeDenial {} "2024-01-01T00:00:00.000Z").location = "Unknown Location"
    ∧ (normalizeDenial {} "2024-01-01T00:00:00.000Z").patientName = "Unknown Patient"
    ∧ (normalizeDenial {} "2024-01-01T00:00:00.000Z").claimAmount = 0
    ∧ (normalizeDenial {} "2024-01-01T00:00:00.000Z").date = "2024-01-01T00:00:00.000Z"
    ∧ (normalizeDenial {} "2024-01-01T00:00:00.000Z").createdAt = "2024-01-01T00:00:00.000Z" := by
  have h := c2_field_defaults {} "2024-01-01T00:00:00.000Z"
  exact ⟨h.1, h.2.1 rfl, h.2.2.1 rfl, h.2.2.2.1 rfl, h.2.2.2.2.1 rfl, (h.2.2.2.2.2.1 rfl).1⟩

/-- Claim C3: file selection validation: a non-`.zip` name
(case-insensitive) or a size above 100 MiB is rejected with a validation
message, leaving the selected file unchanged (so an Idle flow stays
Idle); an accepted file is stored and raises the large-file advisory
exactly when it is strictly larger than 50 MiB. -/
theorem c3_file_validation :
    ∀ (st : UploadModalState) (name : String) (size : Nat),
      (hasZipExtension name = false →
        handleFileChange st name size = { st with error := some "Please select a ZIP file" }
        ∧ (handleFileChange st name size).file = st.file)
      ∧ (hasZipExtension name = true → size > 100 * mib →
        handleFileChange st name size = { st with error := some "File size must be less than 100MB" }
        ∧ (handleFileChange st name size).file = st.file)
      ∧ (hasZipExtension name = true → size ≤ 100 * mib →
        (handleFileChange st name size).file = some (name, size)
        ∧ (handleFileChange st name size).error = none
        ∧ ((handleFileChange st name size).timeoutWarning = true ↔ size > 50 * mib)) := by
  intro st name size
  refine ⟨?_, ?_, ?_⟩
  · intro h
    simp [handleFileChange, h]
  · intro h hsize
    simp [handleFileChange, h, hsize]
  · intro h hsize
    simp [handleFileChange, h, Nat.not_lt.mpr hsize]

/-- Witness for C3, at the four scenarios of the spec: `report.txt` is
rejected with no file accepted, `x.zip` of 101 MiB is rejected, `x.zip`
of 60 MiB is accepted with the advisory, `x.zip` of 10 MiB is accepted
without it. -/
theorem c3_witness :
    (handleFileChange idleUploadState "report.txt" (10 * mib)).file = none
    ∧ (handleFileChange idleUploadState "report.txt" (10 * mib)).error
        = some "Please select a ZIP file"
    ∧ (handleFileChange idleUploadState "x.zip" (101 * mib)).file = none
    ∧ (handleFileChange idleUploadState "x.zip" (60 * mib)).file = some ("x.zip", 60 * mib)
    ∧ (handleFileChange idleUploadState "x.zip" (60 * mib)).timeoutWarning = true
    ∧ (handleFileChange idleUploadState "x.zip" (10 * mib)).timeoutWarning ≠ true := by
  refine ⟨?_, ?_, ?_, ?_, ?_, ?_⟩
  · exact ((c3_file_validation idleUploadState "report.txt" (10 * mib)).1 (by decide)).2
  · have h := ((c3_file_validation idleUploadState "report.txt" (10 * mib)).1 (by decide)).1
    rw [h]
  · exact ((c3_file_validation idleUploadState "x.zip" (101 * mib)).2.1 (by decide) (by decide)).2
  · exact ((c3_file_validation idleUploadState "x.zip" (60 * mib)).2.2 (by decide) (by decide)).1
  · exact ((c3_file_validation idleUploadState "x.zip" (60 * mib)).2.2 (by decide)
      (by decide)).2.2.mpr (by decide)
  · intro h
    exact absurd (((c3_file_validation idleUploadState "x.zip" (10 * mib)).2.2 (by decide)
      (by decide)).2.2.mp h) (by decide)

/-- Counterexample for C4: a 400 response whose JSON error body parses
with a `message` field holding the empty string.  The claim as stated
says the thrown message is the body's `message` field whenever the body
parses, i.e. the empty string here; the gateway instead falls back to
`HTTP 400: Bad Request` because `errorData.message || errorMessage`
treats the empty string as falsy. -/
theorem c4_counterexample :
    request (.response
        { status := 400, statusText := "Bad Request", contentType := none,
          body := "", errorJsonMessage := some (some "") })
      = .thrown "HTTP 400: Bad Request"
    ∧ request (.response
        { status := 400, statusText := "Bad Request", contentType := none,
          body := "", errorJsonMessage := some (some "") })
      ≠ .thrown "" := by
  exact ⟨by decide, by decide⟩

/-- Claim C4 (amended): a non-2xx response throws the `message` field of
the JSON error body when that body parses with a non-empty string
message, and otherwise (no JSON parse, no message field, or an empty
message) exactly `HTTP <status>: <statusText>`; a transport-level
failure is re-thrown as exactly
`Network Error: Unable to connect to backend API`; a 2xx response is
returned as parsed JSON when the content-type includes
`application/json`, as an empty object for status 204, and as raw text
otherwise. -/
theorem c4_request_policy :
    request .failedToFetch = .thrown networkErrorMsg
    ∧ (∀ r : HttpResponse, responseOk r.status = false →
        (∀ m, r.errorJsonMessage = some (some m) → m ≠ "" →
          request (.response r) = .thrown m)
        ∧ (r.errorJsonMessage = none ∨ r.errorJsonMessage = some none
            ∨ r.errorJsonMessage = some (some "") →
          request (.response r) = .thrown (defaultHttpError r)))
    ∧ (∀ r : HttpResponse, responseOk r.status = true →
        contentTypeIsJson r.contentType = true → request (.response r) = .jsonData r.body)
    ∧ (∀ r : HttpResponse, responseOk r.status = true →
        contentTypeIsJson r.contentType = false → r.status = 204 →
        request (.response r) = .emptyObj)
    ∧ (∀ r : HttpResponse, responseOk r.status = true →
        contentTypeIsJson r.contentType = false → r.status ≠ 204 →
        request (.response r) = .textData r.body) := by
  refine ⟨rfl, ?_, ?_, ?_, ?_⟩
  · intro r hok
    constructor
    · intro m hm hne
      simp [request, hok, httpErrorMessage, hm, hne]
    · rintro (h | h | h) <;> simp [request, hok, httpErrorMessage, h]
  · intro r hok hct
    simp [request, hok, hct]
  · intro r hok hct h204
    have hok204 : responseOk 204 = true := by decide
    simp [request, hok, hct, h204, hok204]
  · intro r hok hct h204
    simp [request, hok, hct, h204]

/-- Witness for C4: concrete responses exercising every branch of the
gateway policy. -/
theorem c4_witness :
    request (.response
        { status := 500, statusText := "Internal Server Error",
          contentType := none, body := "", errorJsonMessage := some (some "boom") })
      = .thrown "boom"
    ∧ request (.response
        { status := 404, statusText := "Not Found", contentType := none,
          body := "", errorJsonMessage := none })
      = .thrown "HTTP 404: Not Found"
    ∧ request (.response
        { status := 200, statusText := "OK",
          contentType := some "application/json; charset=utf-8",
          body := "[]", errorJsonMessage := none })
      = .jsonData "[]"
    ∧ request (.response
        { status := 204, statusText := "No Content", contentType := none,
          body := "", errorJsonMessage := none })
      = .emptyObj
    ∧ request (.response
        { status := 200, statusText := "OK", contentType := some "text/plain",
          body := "hello", errorJsonMessage := none })
      = .textData "hello" := by
  refine ⟨?_, ?_, ?_, ?_, ?_⟩
  · exact ((c4_request_policy.2.1 _ (by decide)).1 "boom" rfl (by decide))
  · have h := (c4_request_policy.2.1
      { status := 404, statusText := "Not Found", contentType := none,
        body := "", errorJsonMessage := none } (by decide)).2 (Or.inl rfl)
    rw [h]
    rfl
  · exact c4_request_policy.2.2.1 _ (by decide) (by decide)
  · exact c4_request_policy.2.2.2.1 _ (by decide) (by decide) rfl
  · exact c4_request_policy.2.2.2.2 _ (by decide) (by decide) (by decide)

/-- Claim C5: the transport's upload network-failure signal is the
rejection message `Upload network error`, but the classifier matches the
case-sensitive substring `Network error`, which does not occur in it, so
the failure falls through to the generic branch and the raw transport
message is shown instead of the network-error remediation message.  (A
case-insensitive match would have hit, and the timeout signal does reach
its intended category.) -/
theorem c5_upload_network_error_not_classified :
    classifyUploadError uploadNetworkErrorMsg = uploadNetworkErrorMsg
    ∧ classifyUploadError uploadNetworkErrorMsg ≠ networkRemediationMsg
    ∧ containsSub uploadNetworkErrorMsg "Network error" = false
    ∧ containsSub (jsToLower uploadNetworkErrorMsg) (jsToLower "Network error") = true
    ∧ classifyUploadError uploadTimeoutErrorMsg = timeoutRemediationMsg := by
  refine ⟨by decide, by decide, by decide, by decide, by decide⟩

/-- Claim C6: the offline RCA fallback is a total function of the
denial's reason text: when the lower-cased reason contains
`prior authorization` or `co197` it yields the fixed 3-issue
emergency-services narrative containing a High-severity
Prior Authorization issue, otherwise (including an empty or missing
reason) the fixed 3-issue generic narrative containing a Documentation
issue; the result always carries source `offline` and exactly three
issues. -/
theorem c6_offline_rca :
    ∀ reason : Option String,
      (generateContextualRCA reason).source = "offline"
      ∧ (generateContextualRCA reason).issues.length = 3
      ∧ (rcaKeywordHit (jsToLower (jsOrStr reason "")) = true →
          generateContextualRCA reason = priorAuthRCA
          ∧ ∃ i ∈ (generateContextualRCA reason).issues,
              i.category = "Prior Authorization" ∧ i.severity = "High")
      ∧ (rcaKeywordHit (jsToLower (jsOrStr reason "")) = false →
          generateContextualRCA reason = genericRCA
          ∧ ∃ i ∈ (generateContextualRCA reason).issues,
              i.category = "Documentation") := by
  intro reason
  by_cases h : rcaKeywordHit (jsToLower (jsOrStr reason "")) = true
  · refine ⟨?_, ?_, ?_, ?_⟩ <;> simp_all [generateContextualRCA, priorAuthRCA]
  · refine ⟨?_, ?_, ?_, ?_⟩ <;> simp_all [generateContextualRCA, genericRCA]

/-- Witness for C6, at the two reasons of the spec test: the CO197
prior-authorization reason takes the emergency-services narrative and the
documentation reason takes the generic one. -/
theorem c6_witness :
    generateContextualRCA (some "Denied - CO197 prior authorization required") = priorAuthRCA
    ∧ (∃ i ∈ (generateContextualRCA (some "Denied - CO197 prior authorization required")).issues,
        i.category = "Prior Authorization" ∧ i.severity = "High")
    ∧ generateContextualRCA (some "insufficient documentation") = genericRCA
    ∧ (∃ i ∈ (generateContextualRCA (some "insufficient documentation")).issues,
        i.category = "Documentation")
    ∧ (generateContextualRCA none).source = "offline" := by
  have h1 := (c6_offline_rca (some "Denied - CO197 prior authorization required")).2.2.1 (by decide)
  have h2 := (c6_offline_rca (some "insufficient documentation")).2.2.2 (by decide)
  exact ⟨h1.1, h1.2, h2.1, h2.2, (c6_offline_rca none).1⟩

/-- Claim C7: `triggerRCA` returns the unwrapped `rcaResult` field
exactly when the call succeeds with a truthy `rcaResult`; a missing
field or a failed request raises an error, and any error routes
`handleAnalyze` to the offline fallback result. -/
theorem c7_trigger_rca :
    ∀ (α : Type) (outcome : RcaCallOutcome α) (reason : Option String),
      (∀ v : α, triggerRCA outcome = Except.ok v ↔ outcome = .succeeded (some v))
      ∧ (outcome = .succeeded none → triggerRCA outcome = Except.error rcaMissingMsg)
      ∧ (∀ msg, outcome = .failed msg → triggerRCA outcome = Except.error msg)
      ∧ (∀ e, triggerRCA outcome = Except.error e →
          handleAnalyze reason outcome = .offline (generateContextualRCA reason)) := by
  intro α outcome reason
  refine ⟨?_, ?_, ?_, ?_⟩
  · intro v
    cases outcome with
    | failed msg => simp [triggerRCA]
    | succeeded o => cases o <;> simp [triggerRCA]
  · intro h
    subst h
    rfl
  · intro msg h
    subst h
    rfl
  · intro e he
    simp [handleAnalyze, he]

/-- Witness for C7: a present payload is unwrapped, a missing one and a
failed request raise errors, and the failure routes the handler to the
offline fallback. -/
theorem c7_witness :
    triggerRCA (RcaCallOutcome.succeeded (some 7)) = Except.ok 7
    ∧ triggerRCA (RcaCallOutcome.succeeded (none : Option Nat)) = Except.error rcaMissingMsg
    ∧ triggerRCA (RcaCallOutcome.failed (α := Nat) "HTTP 500: Internal Server Error")
        = Except.error "HTTP 500: Internal Server Error"
    ∧ handleAnalyze (some "insufficient documentation")
        (RcaCallOutcome.failed (α := Nat) "HTTP 500: Internal Server Error")
        = RcaViewResult.offline (generateContextualRCA (some "insufficient documentation")) := by
  refine ⟨?_, ?_, ?_, ?_⟩
  · exact ((c7_trigger_rca Nat (.succeeded (some 7)) none).1 7).mpr rfl
  · exact (c7_trigger_rca Nat (.succeeded none) none).2.1 rfl
  · exact (c7_trigger_rca Nat (.failed "HTTP 500: Internal Server Error") none).2.2.1 _ rfl
  · exact (c7_trigger_rca Nat (.failed "HTTP 500: Internal Server Error")
      (some "insufficient documentation")).2.2.2 "HTTP 500: Internal Server Error"
      ((c7_trigger_rca Nat (.failed "HTTP 500: Internal Server Error") none).2.2.1 _ rfl)

/-- Claim C8: when remote appeal generation fails for any reason,
`handlePrepareAppeal` synthesizes an `AppealResult` with status
`Generated Offline`, `jobId = 0`, empty support-document and
missing-information lists, and the fixed template letter interpolating
the denial's fields; the displayed result is this fallback, and the only
backend call issued is the generation attempt itself — the fallback is
never written back. -/
theorem c8_fallback_appeal :
    ∀ (denial : Denial) (now msg : String) (fmtDate : String → String)
      (fmtAmount : Int → String),
      (handlePrepareAppeal denial now fmtDate fmtAmount (.failed msg)).1.appealStatus
          = "Generated Offline"
      ∧ (handlePrepareAppeal denial now fmtDate fmtAmount (.failed msg)).1.jobId = 0
      ∧ (handlePrepareAppeal denial now fmtDate fmtAmount (.failed msg)).1.supportDocumentLinks
          = []
      ∧ (handlePrepareAppeal denial now fmtDate fmtAmount (.failed msg)).1.missingInformation
          = []
      ∧ (handlePrepareAppeal denial now fmtDate fmtAmount (.failed msg)).1.emailDraft
          = fallbackAppealLetter denial fmtDate fmtAmount
      ∧ (handlePrepareAppeal denial now fmtDate fmtAmount (.failed msg)).1.generatedAt = now
      ∧ (handlePrepareAppeal denial now fmtDate fmtAmount (.failed msg)).1
          = fallbackAppeal denial now fmtDate fmtAmount
      ∧ (handlePrepareAppeal denial now fmtDate fmtAmount (.failed msg)).2
          = [BackendEffect.postGenerateAppeal denial.id]
      ∧ (∀ resp, (handlePrepareAppeal denial now fmtDate fmtAmount (.succeeded resp)).2
          = [BackendEffect.postGenerateAppeal denial.id]) :=
  fun _ _ _ _ _ => ⟨rfl, rfl, rfl, rfl, rfl, rfl, rfl, rfl, fun _ => rfl⟩

/-- Counterexample for C9: with backend status `RCA Completed` and an
`rcaResult.analysis` field that is present but empty, the claim as
stated requires `rootCause` to be the analysis verbatim (the empty
string); the normalizer instead uses its fixed fallback sentence because
`rawDenial.rcaResult?.analysis` is falsy on the empty string. -/
theorem c9_counterexample :
    (normalizeDenialDetail
        { status := some "RCA Completed", rcaResult := some { analysis := some "" } }
        "T").rootCause
      = some rcaCompletedFallback
    ∧ (normalizeDenialDetail
        { status := some "RCA Completed", rcaResult := some { analysis := some "" } }
        "T").rootCause
      ≠ some "" := by
  exact ⟨by decide, by decide⟩

/-- Claim C9 (amended): `rootCause` is populated exactly when the
trimmed backend status equals `RCA Completed`: it is the
`rcaResult.analysis` value verbatim when that field is present and
non-empty, the fixed explanatory sentence when it is absent or empty,
and `undefined` for every other backend status. -/
theorem c9_root_cause :
    ∀ (raw : RawDenial) (now : String),
      (raw.status.map jsTrim ≠ some "RCA Completed" →
        (normalizeDenialDetail raw now).rootCause = none)
      ∧ (raw.status.map jsTrim = some "RCA Completed" →
          (∀ s, raw.rcaResult.bind RawRcaResult.analysis = some s → s ≠ "" →
            (normalizeDenialDetail raw now).rootCause = some s)
          ∧ (jsTruthy (raw.rcaResult.bind RawRcaResult.analysis) = false →
            (normalizeDenialDetail raw now).rootCause = some rcaCompletedFallback)) := by
  intro raw now
  constructor
  · intro h
    simp [normalizeDenialDetail, h]
  · intro h
    constructor
    · intro s hs hne
      simp [normalizeDenialDetail, h, hs, jsTruthy, hne]
    · intro hfalsy
      simp [normalizeDenialDetail, h, hfalsy]

/-- Witness for C9: a record with status `RCA Completed` and a non-empty
analysis yields that analysis verbatim; one with no analysis yields the
fixed sentence; a record with another status leaves `rootCause`
undefined. -/
theorem c9_witness :
    (normalizeDenialDetail
        { status := some "RCA Completed",
          rcaResult := some { analysis := some "Missing prior authorization." } }
        "T").rootCause
      = some "Missing prior authorization."
    ∧ (normalizeDenialDetail { status := some "RCA Completed" } "T").rootCause
      = some rcaCompletedFallback
    ∧ (normalizeDenialDetail { status := some "New" } "T").rootCause = none := by
  refine ⟨?_, ?_, ?_⟩
  · exact ((c9_root_cause
      { status := some "RCA Completed",
        rcaResult := some { analysis := some "Missing prior authorization." } }
      "T").2 (by decide)).1 "Missing prior authorization." rfl (by decide)
  · exact ((c9_root_cause { status := some "RCA Completed" } "T").2 (by decide)).2 (by decide)
  · exact (c9_root_cause { status := some "New" } "T").1 (by decide)

/-- Counterexample for C10: when the backend `id` is absent but
`denialId` is present, the record identifier falls back to `denialId`
while `patientId` falls back to the empty string, so `patientId` is not
the same value as the record identifier, contradicting the claim as
stated. -/
theorem c10_counterexample :
    (normalizeDenial { denialId := some "D7" } "T").patientId = ""
    ∧ (normalizeDenial { denialId := some "D7" } "T").id = "D7"
    ∧ (normalizeDenial { denialId := some "D7" } "T").patientId
        ≠ (normalizeDenial { denialId := some "D7" } "T").id := by
  exact ⟨by decide, by decide, by decide⟩

/-- Claim C10 (amended): `patientId` is always the stringified backend
`id` field with the empty string as default — never an independent
patient identifier — and it coincides with the record identifier
whenever the backend `id` is present and truthy; only when `id` is
absent can the record identifier fall back to `denialId` while
`patientId` stays empty. -/
theorem c10_patient_id :
    ∀ (raw : RawDenial) (now : String),
      (normalizeDenial raw now).patientId = jsOrStr raw.id ""
      ∧ (jsTruthy raw.id = true →
          (normalizeDenial raw now).patientId = (normalizeDenial raw now).id) := by
  intro raw now
  refine ⟨rfl, ?_⟩
  intro h
  cases hid : raw.id with
  | none => simp [jsTruthy, hid] at h
  | some s =>
      have hne : s ≠ "" := by
        simpa [jsTruthy, hid] using h
      simp [normalizeDenial, jsOrStr, hid, hne]

/-- Witness for C10: with a present backend `id`, `patientId` equals the
record identifier. -/
theorem c10_witness :
    (normalizeDenial { id := some "42", denialId := some "D7" } "T").patientId
      = (normalizeDenial { id := some "42", denialId := some "D7" } "T").id
    ∧ (normalizeDenial { id := some "42", denialId := some "D7" } "T").patientId
      = jsOrStr (some "42") "" := by
  refine ⟨?_, ?_⟩
  · exact (c10_patient_id { id := some "42", denialId := some "D7" } "T").2 (by decide)
  · exact (c10_patient_id { id := some "42", denialId := some "D7" } "T").1

end MedicalDenial
